import Mathlib

/-!
Verification of the session middleware (`src/middleware/session/session.go`).

The Go code is shallowly embedded: the `Session` struct is translated field
by field (pointer fields become `Option`), and each lifecycle method becomes
a Lean function.  Calls into external collaborators — the Storage Backend
(`config.Storage.Set/Delete`) and the msgp serializer (`db.MarshalMsg`) —
are modelled by passing their outcome in as a parameter, and every
externally visible action (backend call, cookie directive, pool put) is
recorded in an effect trace returned alongside the updated session.
A `none` result of a lifecycle method models a nil-pointer dereference
(panic), which happens exactly when the Go code would dereference a nil
`db`, `config` or `ctx` pointer.
-/

namespace SessionSpec

/-- Go `error` values are opaque; we model them as strings. -/
abbrev Error := String

/-- A serialized record (`[]byte`), opaque to the engine. -/
abbrev Bytes := List Nat

/-- `time.Duration`, in nanoseconds (Go: int64). -/
abbrev Duration := Int

/-- Modelled from the spec: the Key/Value Record (the `db` type of
`data.go`, which is code of this repository not under `src/`): an ordered
mapping of string keys to arbitrary values, unique keys. -/
structure DB (V : Type) where
  pairs : List (String × V)
deriving Repr, DecidableEq

/-- Modelled from the spec: `Get(key) → value | absent`, no side effects. -/
def DB.Get {V : Type} (d : DB V) (key : String) : Option V :=
  (d.pairs.find? (fun p => p.1 == key)).map Prod.snd

/-- Modelled from the spec: `Set(key, value)` inserts or overwrites
(last write wins at that key). -/
def DB.Set {V : Type} (d : DB V) (key : String) (val : V) : DB V :=
  if d.pairs.any (fun p => p.1 == key) then
    ⟨d.pairs.map (fun p => if p.1 == key then (key, val) else p)⟩
  else
    ⟨d.pairs ++ [(key, val)]⟩

/-- Modelled from the spec: `Delete(key)`, no-op if the key is absent. -/
def DB.Delete {V : Type} (d : DB V) (key : String) : DB V :=
  ⟨d.pairs.filter (fun p => !(p.1 == key))⟩

/-- Modelled from the spec: `Len() → int`, count of keys. -/
def DB.Len {V : Type} (d : DB V) : Nat :=
  d.pairs.length

/-- Modelled from the spec: `Reset()` empties the mapping. -/
def DB.Reset {V : Type} (_ : DB V) : DB V :=
  ⟨[]⟩

/-- Modelled from the spec: `utils.ToLower` (fiber's `utils` package, code
of this repository not under `src/`) — ASCII lowercasing. -/
def asciiLower (c : Char) : Char :=
  if 'A' ≤ c && c ≤ 'Z' then Char.ofNat (c.toNat + 32) else c

/-- ASCII-lowercase a whole string (`utils.ToLower`). -/
def toLowerStr (s : String) : String :=
  ⟨s.data.map asciiLower⟩

/-- The three `fasthttp` same-site modes the switch in `setCookie` /
`delCookie` can select. -/
inductive SameSite where
  | strictMode
  | laxMode
  | noneMode
deriving Repr, DecidableEq

/-- A set-cookie-equivalent directive: the fields of the `fasthttp.Cookie`
that `setCookie`/`delCookie` populate.  `expire` is an absolute time in
nanoseconds. -/
structure Cookie where
  key : String
  value : String
  path : String
  domain : String
  maxAge : Int
  expire : Int
  secure : Bool
  httpOnly : Bool
  sameSite : SameSite
deriving Repr, DecidableEq

/-- Modelled from the spec: the `Store` configuration (`store.go`, code of
this repository not under `src/`) — exactly the fields `session.go`
reads.  The Storage Backend itself is external; its call outcomes are
passed to the lifecycle methods as parameters. -/
structure Store where
  KeyGenerator : Unit → String
  Expiration : Duration
  CookieName : String
  CookiePath : String
  CookieDomain : String
  CookieSecure : Bool
  CookieHTTPOnly : Bool
  CookieSameSite : String

/-- Modelled from the spec's token transport contract: the slice of the
request context (`*fiber.Ctx`) the session code touches — the inbound
request's cookies (name/value pairs) and the pending response's
set-cookie directives. -/
structure Ctx where
  reqCookies : List (String × String)
  respCookies : List Cookie
deriving Repr, DecidableEq

/-- `fasthttp` response `SetCookie`: replaces the cookie with the same key
if present, otherwise appends. -/
def setRespCookie (ctx : Ctx) (c : Cookie) : Ctx :=
  if ctx.respCookies.any (fun x => x.key == c.key) then
    { ctx with respCookies :=
        ctx.respCookies.map (fun x => if x.key == c.key then c else x) }
  else
    { ctx with respCookies := ctx.respCookies ++ [c] }

/-- `fasthttp` response `DelCookie`: removes every pending set-cookie
directive with the given key. -/
def delRespCookie (ctx : Ctx) (name : String) : Ctx :=
  { ctx with respCookies := ctx.respCookies.filter (fun x => !(x.key == name)) }

/-- `fasthttp` request `DelCookie`: removes the cookie with the given name
from the inbound request representation. -/
def delReqCookie (ctx : Ctx) (name : String) : Ctx :=
  { ctx with reqCookies := ctx.reqCookies.filter (fun p => !(p.1 == name)) }

/-- The `Session` struct of `session.go`: the three pointer fields become
`Option` (`none` = nil). -/
structure Session (V : Type) where
  ctx : Option Ctx
  config : Option Store
  db : Option (DB V)
  id : String
  fresh : Bool

/-- Externally visible actions a lifecycle method performs, in order. -/
inductive Effect where
  | storageSet (key : String) (val : Bytes) (exp : Duration)
  | storageDelete (key : String)
  | respSetCookie (c : Cookie)
  | reqDelCookie (name : String)
  | respDelCookie (name : String)
  | poolPut
deriving Repr, DecidableEq

/-- `acquireSession`: take a session from the pool (or a zero-valued new
one when the pool is empty), give it a new empty record and set
`fresh = true`.  The pool is modelled as the list of pooled objects. -/
def acquireSession {V : Type} (pool : List (Session V)) :
    Session V × List (Session V) :=
  match pool with
  | [] =>
    ({ ctx := none, config := none, db := some ⟨[]⟩, id := "", fresh := true },
     [])
  | s :: rest =>
    ({ s with db := some ⟨[]⟩, fresh := true }, rest)

/-- `releaseSession` (state part): clear `ctx` and `config`, reset the
record if non-nil, clear the id, set `fresh = true`. -/
def releaseSession {V : Type} (s : Session V) : Session V :=
  { ctx := none
    config := none
    db := s.db.map DB.Reset
    id := ""
    fresh := true }

/-- `releaseSession` (pool part): the cleared object is put back into the
pool. -/
def releaseToPool {V : Type} (s : Session V) (pool : List (Session V)) :
    List (Session V) :=
  pool ++ [releaseSession s]

/-- `Fresh()`: returns the freshness flag. -/
def Session.Fresh {V : Type} (s : Session V) : Bool :=
  s.fresh

/-- `ID()`: returns the session id. -/
def Session.ID {V : Type} (s : Session V) : String :=
  s.id

/-- `Get(key)`: delegates to the record; `none` models the nil-`db`
panic. -/
def Session.Get {V : Type} (s : Session V) (key : String) :
    Option (Option V) :=
  s.db.map (fun d => d.Get key)

/-- `Set(key, val)`: delegates to the record. -/
def Session.Set {V : Type} (s : Session V) (key : String) (val : V) :
    Option (Session V) :=
  s.db.map (fun d => { s with db := some (d.Set key val) })

/-- `Delete(key)`: delegates to the record. -/
def Session.Delete {V : Type} (s : Session V) (key : String) :
    Option (Session V) :=
  s.db.map (fun d => { s with db := some (d.Delete key) })

/-- The cookie built by `setCookie`: name/value/path/domain from config and
id, `maxAge = int(Expiration.Seconds())` (truncated whole seconds),
`expire = now + Expiration`, and the same-site switch on the
ASCII-lowercased configured value. -/
def mkSetCookie (cfg : Store) (id : String) (now : Int) : Cookie :=
  { key := cfg.CookieName
    value := id
    path := cfg.CookiePath
    domain := cfg.CookieDomain
    maxAge := Int.tdiv cfg.Expiration 1000000000
    expire := now + cfg.Expiration
    secure := cfg.CookieSecure
    httpOnly := cfg.CookieHTTPOnly
    sameSite :=
      if toLowerStr cfg.CookieSameSite == "strict" then SameSite.strictMode
      else if toLowerStr cfg.CookieSameSite == "none" then SameSite.noneMode
      else SameSite.laxMode }

/-- The revocation cookie built by `delCookie`: same name/path/domain and
flags, no value, `maxAge = -1`, `expire = now - 1 minute`. -/
def mkDelCookie (cfg : Store) (now : Int) : Cookie :=
  { key := cfg.CookieName
    value := ""
    path := cfg.CookiePath
    domain := cfg.CookieDomain
    maxAge := -1
    expire := now - 60 * 1000000000
    secure := cfg.CookieSecure
    httpOnly := cfg.CookieHTTPOnly
    sameSite :=
      if toLowerStr cfg.CookieSameSite == "strict" then SameSite.strictMode
      else if toLowerStr cfg.CookieSameSite == "none" then SameSite.noneMode
      else SameSite.laxMode }

/-- `Destroy()`: resets the local record, asks the backend to delete the
id's entry (`deleteResult` is that call's outcome), and on success runs
`delCookie` (strip the cookie from request and response, then emit the
revocation directive).  Returns the Go error, the updated session and the
effect trace; `none` models a nil-pointer panic. -/
def Session.Destroy {V : Type} (s : Session V) (deleteResult : Option Error)
    (now : Int) : Option (Option Error × Session V × List Effect) :=
  match s.db with
  | none => none
  | some d =>
    let s0 : Session V := { s with db := some d.Reset }
    match s0.config with
    | none => none
    | some cfg =>
      match deleteResult with
      | some e => some (some e, s0, [Effect.storageDelete s0.id])
      | none =>
        match s0.ctx with
        | none => none
        | some ctx =>
          let ctx1 := delReqCookie ctx cfg.CookieName
          let ctx2 := delRespCookie ctx1 cfg.CookieName
          let c := mkDelCookie cfg now
          let ctx3 := setRespCookie ctx2 c
          some (none, { s0 with ctx := some ctx3 },
            [Effect.storageDelete s0.id,
             Effect.reqDelCookie cfg.CookieName,
             Effect.respDelCookie cfg.CookieName,
             Effect.respSetCookie c])

/-- `Regenerate()`: asks the backend to delete the old id's entry
(`deleteResult` is that call's outcome); on success assigns a freshly
generated id from the configured generator. -/
def Session.Regenerate {V : Type} (s : Session V)
    (deleteResult : Option Error) :
    Option (Option Error × Session V × List Effect) :=
  match s.config with
  | none => none
  | some cfg =>
    match deleteResult with
    | some e => some (some e, s, [Effect.storageDelete s.id])
    | none =>
      some (none, { s with id := cfg.KeyGenerator () },
        [Effect.storageDelete s.id])

/-- `Save()`: returns nil immediately if the record is empty; otherwise
serializes the record (`marshalResult` is the outcome of
`db.MarshalMsg(nil)`), writes it to the backend (`setResult` is the
outcome of `Storage.Set(id, data, Expiration)`), and on success emits the
session cookie and releases the session to the pool. -/
def Session.Save {V : Type} (s : Session V)
    (marshalResult : Except Error Bytes) (setResult : Option Error)
    (now : Int) : Option (Option Error × Session V × List Effect) :=
  match s.db with
  | none => none
  | some d =>
    if d.Len ≤ 0 then
      some (none, s, [])
    else
      match marshalResult with
      | Except.error e => some (some e, s, [])
      | Except.ok data =>
        match s.config with
        | none => none
        | some cfg =>
          match setResult with
          | some e =>
            some (some e, s, [Effect.storageSet s.id data cfg.Expiration])
          | none =>
            match s.ctx with
            | none => none
            | some ctx =>
              let c := mkSetCookie cfg s.id now
              let s1 : Session V := { s with ctx := some (setRespCookie ctx c) }
              some (none, releaseSession s1,
                [Effect.storageSet s.id data cfg.Expiration,
                 Effect.respSetCookie c,
                 Effect.poolPut])

/-! ## Concrete sample data used by witnesses and counterexamples -/

/-- A concrete store configuration (one-hour expiration). -/
def sampleCfg : Store :=
  { KeyGenerator := fun _ => "generated-id"
    Expiration := 3600000000000
    CookieName := "session_id"
    CookiePath := "/"
    CookieDomain := "example.com"
    CookieSecure := true
    CookieHTTPOnly := true
    CookieSameSite := "Lax" }

/-- A concrete request context carrying the session cookie inbound. -/
def sampleCtx : Ctx :=
  { reqCookies := [("session_id", "abc")]
    respCookies := [] }

/-- An active session whose record is empty. -/
def emptySession : Session Nat :=
  { ctx := some sampleCtx
    config := some sampleCfg
    db := some ⟨[]⟩
    id := "abc"
    fresh := true }

/-- An active session whose record holds one key. -/
def dataSession : Session Nat :=
  { ctx := some sampleCtx
    config := some sampleCfg
    db := some ⟨[("user", 1)]⟩
    id := "abc"
    fresh := true }

/-! ## Helper lemmas (shared computations of the lifecycle methods) -/

/-- Computation of `Destroy` when the backend delete fails. -/
theorem destroy_fail_eq {V : Type} (s : Session V) (d : DB V) (cfg : Store)
    (hdb : s.db = some d) (hcfg : s.config = some cfg) (e : Error)
    (now : Int) :
    s.Destroy (some e) now =
      some (some e, { s with db := some (⟨[]⟩ : DB V) },
        [Effect.storageDelete s.id]) := by
  simp [Session.Destroy, hdb, hcfg, DB.Reset]

/-- Computation of `Destroy` when the backend delete succeeds. -/
theorem destroy_ok_eq {V : Type} (s : Session V) (d : DB V) (cfg : Store)
    (ctx : Ctx) (hdb : s.db = some d) (hcfg : s.config = some cfg)
    (hctx : s.ctx = some ctx) (now : Int) :
    s.Destroy none now =
      some (none,
        { s with db := some (⟨[]⟩ : DB V),
                 ctx := some (setRespCookie
                   (delRespCookie (delReqCookie ctx cfg.CookieName)
                     cfg.CookieName)
                   (mkDelCookie cfg now)) },
        [Effect.storageDelete s.id,
         Effect.reqDelCookie cfg.CookieName,
         Effect.respDelCookie cfg.CookieName,
         Effect.respSetCookie (mkDelCookie cfg now)]) := by
  simp [Session.Destroy, hdb, hcfg, hctx, DB.Reset]

/-- Computation of `Save` when the record is non-empty and both the
serialization and the backend write succeed. -/
theorem save_ok_eq {V : Type} (s : Session V) (d : DB V) (cfg : Store)
    (ctx : Ctx) (hdb : s.db = some d) (hlen : 0 < d.Len)
    (hcfg : s.config = some cfg) (hctx : s.ctx = some ctx) (data : Bytes)
    (now : Int) :
    s.Save (Except.ok data) none now =
      some (none,
        { ctx := none, config := none, db := some (⟨[]⟩ : DB V), id := "",
          fresh := true },
        [Effect.storageSet s.id data cfg.Expiration,
         Effect.respSetCookie (mkSetCookie cfg s.id now),
         Effect.poolPut]) := by
  have hlen' : ¬ d.Len ≤ 0 := by omega
  simp [Session.Save, hdb, hlen', hcfg, hctx, releaseSession, DB.Reset]

/-! ## Claims -/

/-- C1: for every session whose record is empty (`Len() == 0`), `Save()`
performs no backend write, issues no cookie (empty effect trace) and
returns no error, leaving the session unchanged. -/
theorem save_empty_is_noop {V : Type} (s : Session V) (d : DB V)
    (hdb : s.db = some d) (hlen : d.Len = 0)
    (mr : Except Error Bytes) (sr : Option Error) (now : Int) :
    s.Save mr sr now = some (none, s, []) := by
  simp [Session.Save, hdb, hlen]

/-- Witness for C1 at a concrete empty session. -/
theorem save_empty_is_noop_witness :
    emptySession.Save (Except.ok [1]) none 0 = some (none, emptySession, []) :=
  save_empty_is_noop emptySession ⟨[]⟩ rfl rfl (Except.ok [1]) none 0

/-- C2: if `Save()` on a non-empty record fails (serialization error or
backend `Set` error), it returns that error, the session is unchanged
(id, record, freshness flag and store reference included), and the effect
trace contains no cookie issuance and no pool release. -/
theorem save_failure_frame {V : Type} (s : Session V) (d : DB V) (cfg : Store)
    (hdb : s.db = some d) (hcfg : s.config = some cfg) (hlen : 0 < d.Len)
    (mr : Except Error Bytes) (sr : Option Error) (now : Int) (e : Error)
    (hfail : mr = Except.error e ∨ (sr = some e ∧ ∃ b, mr = Except.ok b)) :
    ∃ effs, s.Save mr sr now = some (some e, s, effs) ∧
      (∀ c, Effect.respSetCookie c ∉ effs) ∧ Effect.poolPut ∉ effs := by
  have hlen' : ¬ d.Len ≤ 0 := by omega
  rcases hfail with h | ⟨hsr, b, hmr⟩
  · exact ⟨[], by simp [Session.Save, hdb, hlen', h], by simp, by simp⟩
  · refine ⟨[Effect.storageSet s.id b cfg.Expiration], ?_, by simp, by simp⟩
    simp [Session.Save, hdb, hlen', hcfg, hmr, hsr]

/-- Witness for C2 at a concrete session with a failing serialization. -/
theorem save_failure_frame_witness :
    ∃ effs, dataSession.Save (Except.error "boom") none 0 =
        some (some "boom", dataSession, effs) ∧
      (∀ c, Effect.respSetCookie c ∉ effs) ∧ Effect.poolPut ∉ effs :=
  save_failure_frame dataSession ⟨[("user", 1)]⟩ sampleCfg rfl rfl
    (by decide) (Except.error "boom") none 0 "boom" (Or.inl rfl)

/-- C4: `Regenerate()` returns the backend error with the identifier (and
the whole session) unchanged when the delete fails, and on success
replaces the identifier with one freshly produced by the configured
generator, returning nil. -/
theorem regenerate_rotation {V : Type} (s : Session V) (cfg : Store)
    (hcfg : s.config = some cfg) (dr : Option Error) :
    (∀ e, dr = some e →
      s.Regenerate dr = some (some e, s, [Effect.storageDelete s.id])) ∧
    (dr = none →
      s.Regenerate dr =
        some (none, { s with id := cfg.KeyGenerator () },
          [Effect.storageDelete s.id])) := by
  constructor
  · intro e he
    simp [Session.Regenerate, hcfg, he]
  · intro h
    simp [Session.Regenerate, hcfg, h]

/-- Witness for C4 at a concrete session with a succeeding delete. -/
theorem regenerate_rotation_witness :
    dataSession.Regenerate none =
      some (none, { dataSession with id := "generated-id" },
        [Effect.storageDelete "abc"]) :=
  (regenerate_rotation dataSession sampleCfg rfl none).2 rfl

/-- C10: a successful `Regenerate()` changes only the identifier: record,
freshness flag, store reference and request context are unchanged, and
`Get` answers exactly as before. -/
theorem regenerate_frame {V : Type} (s : Session V) (cfg : Store)
    (hcfg : s.config = some cfg) :
    ∃ s', s.Regenerate none = some (none, s', [Effect.storageDelete s.id]) ∧
      s'.id = cfg.KeyGenerator () ∧ s'.db = s.db ∧ s'.fresh = s.fresh ∧
      s'.config = s.config ∧ s'.ctx = s.ctx ∧
      ∀ k, s'.Get k = s.Get k := by
  refine ⟨{ s with id := cfg.KeyGenerator () }, ?_, rfl, rfl, rfl, rfl, rfl,
    fun k => rfl⟩
  simp [Session.Regenerate, hcfg]

/-- Witness for C10 at a concrete session. -/
theorem regenerate_frame_witness :
    ∃ s', dataSession.Regenerate none =
        some (none, s', [Effect.storageDelete dataSession.id]) ∧
      s'.id = sampleCfg.KeyGenerator () ∧ s'.db = dataSession.db ∧
      s'.fresh = dataSession.fresh ∧ s'.config = dataSession.config ∧
      s'.ctx = dataSession.ctx ∧ ∀ k, s'.Get k = dataSession.Get k :=
  regenerate_frame dataSession sampleCfg rfl

/-- C3 counterexample: `Save()` on an empty record returns nil yet the
object is NOT released — its id stays `"abc"`, the store reference and
context stay set, and no pool put is emitted. -/
theorem save_nil_without_release_cex :
    emptySession.Save (Except.ok [1]) none 0 = some (none, emptySession, []) ∧
    emptySession.id = "abc" ∧ emptySession.config ≠ none ∧
    emptySession.ctx ≠ none ∧ emptySession.fresh = true := by
  refine ⟨rfl, rfl, ?_, ?_, rfl⟩
  · intro h
    exact Option.noConfusion h
  · intro h
    exact Option.noConfusion h

/-- C3 amended: whenever `Save()` returns nil on a session whose record is
NON-empty, the object has been released: store reference and context
cleared to nil, identifier emptied, record reset, freshness set to true,
and a pool put emitted. -/
theorem save_success_releases {V : Type} (s : Session V) (d : DB V)
    (cfg : Store) (ctx : Ctx) (hdb : s.db = some d) (hlen : 0 < d.Len)
    (hcfg : s.config = some cfg) (hctx : s.ctx = some ctx)
    (mr : Except Error Bytes) (sr : Option Error) (now : Int)
    (r : Session V) (effs : List Effect)
    (hrun : s.Save mr sr now = some (none, r, effs)) :
    r.config = none ∧ r.ctx = none ∧ r.id = "" ∧ r.db = some (⟨[]⟩ : DB V) ∧
    r.fresh = true ∧ Effect.poolPut ∈ effs := by
  have hlen' : ¬ d.Len ≤ 0 := by omega
  rcases mr with e | data
  · simp [Session.Save, hdb, hlen'] at hrun
  · rcases sr with _ | e
    · rw [save_ok_eq s d cfg ctx hdb hlen hcfg hctx data now] at hrun
      obtain ⟨hr, heffs⟩ := by
        simpa using hrun
      subst hr heffs
      exact ⟨rfl, rfl, rfl, rfl, rfl, by simp⟩
    · simp [Session.Save, hdb, hlen', hcfg] at hrun

/-- Witness for the amended C3 at a concrete successful save. -/
theorem save_success_releases_witness :
    (({ ctx := none, config := none, db := some (⟨[]⟩ : DB Nat), id := "",
        fresh := true } : Session Nat).config = none) ∧
    Effect.poolPut ∈ [Effect.storageSet "abc" [42] sampleCfg.Expiration,
      Effect.respSetCookie (mkSetCookie sampleCfg "abc" 0), Effect.poolPut] :=
  ⟨(save_success_releases dataSession ⟨[("user", 1)]⟩ sampleCfg sampleCtx rfl
      (by decide) rfl rfl (Except.ok [42]) none 0 _ _
      (save_ok_eq dataSession ⟨[("user", 1)]⟩ sampleCfg sampleCtx rfl
        (by decide) rfl rfl [42] 0)).1,
   by simp⟩

/-- C5: `Destroy()` always resets the local record (also when the backend
delete fails); on delete failure it returns that error and emits no
revocation directive; on success it emits the revocation directive and
returns nil. -/
theorem destroy_behavior {V : Type} (s : Session V) (d : DB V) (cfg : Store)
    (ctx : Ctx) (hdb : s.db = some d) (hcfg : s.config = some cfg)
    (hctx : s.ctx = some ctx) (dr : Option Error) (now : Int) :
    (∀ e, dr = some e →
      s.Destroy dr now =
        some (some e, { s with db := some (⟨[]⟩ : DB V) },
          [Effect.storageDelete s.id])) ∧
    (dr = none →
      ∃ s' effs, s.Destroy dr now = some (none, s', effs) ∧
        s'.db = some (⟨[]⟩ : DB V) ∧
        Effect.respSetCookie (mkDelCookie cfg now) ∈ effs) := by
  constructor
  · intro e he
    subst he
    exact destroy_fail_eq s d cfg hdb hcfg e now
  · intro h
    subst h
    refine ⟨_, _, destroy_ok_eq s d cfg ctx hdb hcfg hctx now, rfl, by simp⟩

/-- Witness for C5 at a concrete session whose delete fails. -/
theorem destroy_behavior_witness :
    dataSession.Destroy (some "down") 0 =
      some (some "down", { dataSession with db := some (⟨[]⟩ : DB Nat) },
        [Effect.storageDelete "abc"]) :=
  (destroy_behavior dataSession ⟨[("user", 1)]⟩ sampleCfg sampleCtx rfl rfl
    rfl (some "down") 0).1 "down" rfl

/-- C6 counterexample: a successful `Destroy()` leaves the freshness flag
untouched — here `Fresh()` is still `true` afterwards, where the claim
demands `false`. -/
theorem destroy_keeps_fresh_cex :
    (dataSession.Destroy none 0).map
        (fun r => (r.1, r.2.1.Fresh, r.2.1.fresh)) =
      some (none, true, true) := by
  rw [destroy_ok_eq dataSession ⟨[("user", 1)]⟩ sampleCfg sampleCtx rfl rfl
    rfl 0]
  rfl

/-- C6 amended: `Fresh()` merely returns the stored flag; within
`session.go` nothing ever sets it to false — a successful `Destroy()`
leaves it unchanged, and a successful non-empty `Save()` hands back a
released object whose flag was reset to true. -/
theorem fresh_flag_behavior {V : Type} (s : Session V) (d : DB V)
    (cfg : Store) (ctx : Ctx) (hdb : s.db = some d)
    (hcfg : s.config = some cfg) (hctx : s.ctx = some ctx) (now : Int) :
    s.Fresh = s.fresh ∧
    (∀ r, s.Destroy none now = some r → r.2.1.fresh = s.fresh) ∧
    (∀ data r, 0 < d.Len →
      s.Save (Except.ok data) none now = some r → r.2.1.fresh = true) := by
  refine ⟨rfl, ?_, ?_⟩
  · intro r hr
    rw [destroy_ok_eq s d cfg ctx hdb hcfg hctx now] at hr
    obtain ⟨rfl⟩ := by
      simpa using hr.symm
    rfl
  · intro data r hlen hr
    rw [save_ok_eq s d cfg ctx hdb hlen hcfg hctx data now] at hr
    obtain ⟨rfl⟩ := by
      simpa using hr.symm
    rfl

/-- Witness for the amended C6 at a concrete session. -/
theorem fresh_flag_behavior_witness :
    dataSession.Fresh = dataSession.fresh ∧
    (∀ r, dataSession.Destroy none 0 = some r →
      r.2.1.fresh = dataSession.fresh) :=
  ⟨(fresh_flag_behavior dataSession ⟨[("user", 1)]⟩ sampleCfg sampleCtx rfl
      rfl rfl 0).1,
   (fresh_flag_behavior dataSession ⟨[("user", 1)]⟩ sampleCfg sampleCtx rfl
      rfl rfl 0).2.1⟩

/-- `setRespCookie` leaves the inbound request cookies untouched. -/
theorem setRespCookie_reqCookies (ctx : Ctx) (c : Cookie) :
    (setRespCookie ctx c).reqCookies = ctx.reqCookies := by
  unfold setRespCookie
  split <;> rfl

/-- When no pending response cookie shares the new cookie's key,
`setRespCookie` appends it. -/
theorem setRespCookie_respCookies_of_absent (ctx : Ctx) (c : Cookie)
    (h : ctx.respCookies.any (fun x => x.key == c.key) = false) :
    (setRespCookie ctx c).respCookies = ctx.respCookies ++ [c] := by
  simp [setRespCookie, h]

/-- After `delRespCookie`, no pending response cookie carries the deleted
name. -/
theorem delRespCookie_any_false (ctx : Ctx) (name : String) :
    ((delRespCookie ctx name).respCookies.any
      (fun x => x.key == name)) = false := by
  rw [Bool.eq_false_iff]
  intro h
  rw [List.any_eq_true] at h
  obtain ⟨x, hx, hkey⟩ := h
  simp only [delRespCookie, List.mem_filter] at hx
  have h2 := hx.2
  rw [hkey] at h2
  simp at h2

/-- C7: `releaseSession` clears the context, store reference, identifier
and record and sets freshness to true; consequently `acquireSession`
hands out objects with an empty record, `fresh = true`, an empty
identifier and no store reference — both when recycling a released
object and when constructing a new one. -/
theorem pool_release_acquire_inv {V : Type} (s t : Session V)
    (rest : List (Session V)) :
    (releaseSession s).ctx = none ∧ (releaseSession s).config = none ∧
    (releaseSession s).id = "" ∧ (releaseSession s).fresh = true ∧
    ((releaseSession s).db = none ∨
      (releaseSession s).db = some (⟨[]⟩ : DB V)) ∧
    DB.Len (⟨[]⟩ : DB V) = 0 ∧
    releaseToPool t [] = [releaseSession t] ∧
    (acquireSession (releaseSession t :: rest)).1.db = some (⟨[]⟩ : DB V) ∧
    (acquireSession (releaseSession t :: rest)).1.fresh = true ∧
    (acquireSession (releaseSession t :: rest)).1.id = "" ∧
    (acquireSession (releaseSession t :: rest)).1.config = none ∧
    (acquireSession ([] : List (Session V))).1.db = some (⟨[]⟩ : DB V) ∧
    (acquireSession ([] : List (Session V))).1.fresh = true ∧
    (acquireSession ([] : List (Session V))).1.id = "" ∧
    (acquireSession ([] : List (Session V))).1.config = none := by
  refine ⟨rfl, rfl, rfl, rfl, ?_, rfl, rfl, rfl, rfl, rfl, rfl, rfl, rfl,
    rfl, rfl⟩
  cases hdb : s.db with
  | none => exact Or.inl (by simp [releaseSession, hdb])
  | some d => exact Or.inr (by simp [releaseSession, hdb, DB.Reset])

/-- C8: on success `Destroy()` emits a revocation cookie with the same
name/path/domain as the issue cookie, `maxAge = -1` and an expire time one
minute in the past, and the identically named cookie is stripped from the
inbound request and from any stale pending response entry. -/
theorem destroy_revocation_cookie {V : Type} (s : Session V) (d : DB V)
    (cfg : Store) (ctx : Ctx) (hdb : s.db = some d)
    (hcfg : s.config = some cfg) (hctx : s.ctx = some ctx) (now : Int) :
    ∃ ctx' effs,
      s.Destroy none now =
        some (none,
          { s with db := some (⟨[]⟩ : DB V), ctx := some ctx' }, effs) ∧
      (∀ i n2, (mkDelCookie cfg now).key = (mkSetCookie cfg i n2).key ∧
        (mkDelCookie cfg now).path = (mkSetCookie cfg i n2).path ∧
        (mkDelCookie cfg now).domain = (mkSetCookie cfg i n2).domain) ∧
      (mkDelCookie cfg now).key = cfg.CookieName ∧
      (mkDelCookie cfg now).maxAge = -1 ∧
      (mkDelCookie cfg now).expire = now - 60 * 1000000000 ∧
      Effect.respSetCookie (mkDelCookie cfg now) ∈ effs ∧
      (∀ p ∈ ctx'.reqCookies, p.1 ≠ cfg.CookieName) ∧
      (∀ c ∈ ctx'.respCookies, c.key = cfg.CookieName →
        c = mkDelCookie cfg now) := by
  refine ⟨_, _, destroy_ok_eq s d cfg ctx hdb hcfg hctx now,
    fun i n2 => ⟨rfl, rfl, rfl⟩, rfl, rfl, rfl, by simp, ?_, ?_⟩
  · intro p hp
    rw [setRespCookie_reqCookies] at hp
    simp [delRespCookie, delReqCookie, List.mem_filter] at hp
    exact hp.2
  · intro c' hc' hkey
    rw [setRespCookie_respCookies_of_absent _ _
      (delRespCookie_any_false (delReqCookie ctx cfg.CookieName)
        cfg.CookieName)] at hc'
    rw [List.mem_append] at hc'
    rcases hc' with hc' | hc'
    · simp only [delRespCookie, List.mem_filter] at hc'
      have h2 := hc'.2
      rw [show ((c'.key == cfg.CookieName) = true) from beq_iff_eq.mpr hkey]
        at h2
      simp at h2
    · simpa using hc'

/-- Witness for C8 at a concrete session. -/
theorem destroy_revocation_cookie_witness :
    (mkDelCookie sampleCfg 0).key = (mkSetCookie sampleCfg "abc" 99).key ∧
    (mkDelCookie sampleCfg 0).maxAge = -1 ∧
    (mkDelCookie sampleCfg 0).expire = 0 - 60 * 1000000000 := by
  obtain ⟨ctx', effs, hrun, hsame, hkey, hmax, hexp, hmem, hreq, hresp⟩ :=
    destroy_revocation_cookie dataSession ⟨[("user", 1)]⟩ sampleCfg sampleCtx
      rfl rfl rfl 0
  exact ⟨(hsame "abc" 99).1, hmax, hexp⟩

/-- C9: a successful non-empty `Save()` emits a cookie whose value is the
session id, whose name/path/domain/secure/httpOnly come from the
configuration, whose maxAge is the expiration in whole seconds with
`expire = now + expiration`, and whose same-site attribute is Strict or
None exactly on a case-insensitive match, defaulting to Lax. -/
theorem save_cookie_attributes {V : Type} (s : Session V) (d : DB V)
    (cfg : Store) (ctx : Ctx) (hdb : s.db = some d) (hlen : 0 < d.Len)
    (hcfg : s.config = some cfg) (hctx : s.ctx = some ctx) (data : Bytes)
    (now : Int) :
    (∃ s' effs, s.Save (Except.ok data) none now = some (none, s', effs) ∧
      Effect.respSetCookie (mkSetCookie cfg s.id now) ∈ effs) ∧
    (mkSetCookie cfg s.id now).value = s.id ∧
    (mkSetCookie cfg s.id now).key = cfg.CookieName ∧
    (mkSetCookie cfg s.id now).path = cfg.CookiePath ∧
    (mkSetCookie cfg s.id now).domain = cfg.CookieDomain ∧
    (mkSetCookie cfg s.id now).secure = cfg.CookieSecure ∧
    (mkSetCookie cfg s.id now).httpOnly = cfg.CookieHTTPOnly ∧
    (mkSetCookie cfg s.id now).maxAge = Int.tdiv cfg.Expiration 1000000000 ∧
    (mkSetCookie cfg s.id now).expire = now + cfg.Expiration ∧
    (toLowerStr cfg.CookieSameSite = "strict" →
      (mkSetCookie cfg s.id now).sameSite = SameSite.strictMode) ∧
    (toLowerStr cfg.CookieSameSite = "none" →
      (mkSetCookie cfg s.id now).sameSite = SameSite.noneMode) ∧
    (toLowerStr cfg.CookieSameSite ≠ "strict" →
      toLowerStr cfg.CookieSameSite ≠ "none" →
      (mkSetCookie cfg s.id now).sameSite = SameSite.laxMode) := by
  refine ⟨⟨_, _, save_ok_eq s d cfg ctx hdb hlen hcfg hctx data now,
    by simp⟩, rfl, rfl, rfl, rfl, rfl, rfl, rfl, rfl, ?_, ?_, ?_⟩
  · intro h
    have hs : (toLowerStr cfg.CookieSameSite == "strict") = true := by
      rw [h]
      decide
    simp [mkSetCookie, hs]
  · intro h
    have hs : (toLowerStr cfg.CookieSameSite == "strict") = false := by
      rw [h]
      decide
    have hn : (toLowerStr cfg.CookieSameSite == "none") = true := by
      rw [h]
      decide
    simp [mkSetCookie, hs, hn]
  · intro h1 h2
    have hs : (toLowerStr cfg.CookieSameSite == "strict") = false := by
      rw [beq_eq_false_iff_ne]
      exact h1
    have hn : (toLowerStr cfg.CookieSameSite == "none") = false := by
      rw [beq_eq_false_iff_ne]
      exact h2
    simp [mkSetCookie, hs, hn]

/-- Witness for C9 at a concrete configuration (`CookieSameSite = "Lax"`,
one-hour expiration). -/
theorem save_cookie_attributes_witness :
    (mkSetCookie sampleCfg dataSession.id 5).value = dataSession.id ∧
    (mkSetCookie sampleCfg dataSession.id 5).maxAge = 3600 ∧
    (mkSetCookie sampleCfg dataSession.id 5).expire = 5 + 3600000000000 ∧
    (mkSetCookie sampleCfg dataSession.id 5).sameSite = SameSite.laxMode := by
  obtain ⟨hrun, hval, hkey, hpath, hdom, hsec, hhttp, hmax, hexp, hstrict,
    hnone, hlax⟩ :=
    save_cookie_attributes dataSession ⟨[("user", 1)]⟩ sampleCfg sampleCtx
      rfl (by decide) rfl rfl [42] 5
  refine ⟨hval, ?_, hexp, hlax (by decide) (by decide)⟩
  rw [hmax]
  decide

end SessionSpec
